import Mathlib

/-
  Verification of the GCS-event relay (`main.py`).

  The file shallow-embeds the handler `process_gcs_event` together with the
  pieces of its environment that its behaviour depends on:

  * `PyVal` — Python values that can live inside an already-decoded payload
    mapping (the constructor `nonJson` stands for any Python object that
    `json.dumps` cannot serialise, e.g. a set or a custom object);
  * `PyData` — the shapes the CloudEvent data payload can take in the code's
    branches: an already-decoded mapping (`dict`), raw `bytes`, or `str`;
  * `utf8Encode` / `utf8Decode` — strict UTF-8, modelling `str.encode('utf-8')`
    and `bytes.decode('utf-8')` (the decoder rejects what CPython rejects:
    continuation errors, overlong forms, surrogates, out-of-range);
  * `loads` — a model of `json.loads` on a `str`: full JSON grammar with
    strings (escapes included), `true`/`false`/`null`, arrays, objects with
    last-duplicate-key-wins (CPython dict semantics), strict rejection of
    unescaped control characters. Model restrictions, documented here once:
    JSON numbers are restricted to integers (no fractions/exponents, which
    CPython parses into floats — floating point is outside this model), and
    `\uXXXX` escapes in the surrogate range are rejected (CPython admits
    them into `str`; Lean `Char` cannot hold surrogates);
  * `dumps` — a model of `json.dumps` with CPython's defaults: separators
    `", "` and `": "`, `ensure_ascii=True`, insertion order preserved,
    failing (a `TypeError`) on a non-serialisable value;
  * the handler itself, returning the emitted log records, the list of
    publish calls made (topic and message bytes), the control-flow outcome
    (normal return or a propagated exception), and the final global state.
-/

/-- Python values occurring inside a decoded payload mapping. -/
inductive PyVal where
  | none
  | bool (b : Bool)
  | int (n : Int)
  | str (s : String)
  | list (xs : List PyVal)
  | dict (m : List (String × PyVal))
  | nonJson
deriving Inhabited

/-- The shapes `cloud_event.get_data()` can produce that the code branches on:
an already-decoded mapping, raw bytes, or text. -/
inductive PyData where
  | dict (m : List (String × PyVal))
  | bytes (b : List Nat)
  | str (s : String)
deriving Inhabited

/-- Python truthiness of a data payload: `if not data` is taken when the
payload is an empty dict, empty bytes, or empty string (and when it is
`None`, modelled by `Option.none` at the call site). -/
def PyData.isTruthy : PyData → Bool
  | .dict m => !m.isEmpty
  | .bytes b => !b.isEmpty
  | .str s => !s.isEmpty

/-- The inbound CloudEvent: an attribute mapping and an optional data payload
(`cloud_event.get_data()` returns `None` when the payload is absent). -/
structure CloudEvent where
  attributes : List (String × String)
  data : Option PyData

/-- The module-level state read by the handler (`main.py` lines 10-24):
the two environment values and the topic path built from them at import
time. The publisher client itself carries no observable state beyond the
topic path it publishes to. -/
structure GlobalConfig where
  PROJECT_ID : Option String
  PUBSUB_TOPIC_ID : Option String
  topic_path : String
deriving Repr, DecidableEq

/-- `os.environ.get` result formatted into the topic path the way
`publisher.topic_path` formats its arguments (Python `str(None) = "None"`). -/
def pyShowOpt : Option String → String
  | some s => s
  | none => "None"

/-- Module initialisation (lines 10-24): read the two environment values and
build the topic path once, at import time. -/
def initGlobals (envProject envTopic : Option String) : GlobalConfig :=
  { PROJECT_ID := envProject
    PUBSUB_TOPIC_ID := envTopic
    topic_path := "projects/" ++ pyShowOpt envProject ++ "/topics/" ++ pyShowOpt envTopic }

/-- One log record per `print` call in the handler, in emission order. -/
inductive LogEntry where
  | receivedEvent (attrs : List (String × String))
  | noData
  | jsonDecodeError
  | rawData (d : PyData)
  | unexpectedError
  | processingFile (name : PyVal)
  | bucketLine (bucket : PyVal)
  | sizeLine (size : PyVal)
  | formatLine (fmt : PyVal)
  | publishSuccess (messageId : String) (topic : Option String)
  | publishFailure (err : String)

/-- Exceptions that can escape the handler uncaught. -/
inductive PyExn where
  | typeError
  | attributeError
deriving DecidableEq

/-- How an invocation ends: a normal return, or an uncaught exception. -/
inductive Outcome where
  | normal
  | exn (e : PyExn)
deriving DecidableEq

/-- The environment's answer to the (at most one) publish call: either the
future resolves with a message id, or `publish`/`future.result()` raises. -/
inductive PubOutcome where
  | success (messageId : String)
  | failure (err : String)

/-- Everything observable about one invocation: log records, the publish
calls made (topic, message bytes), the outcome, and the module-level state
after the call. -/
structure RunResult where
  logs : List LogEntry
  published : List (String × List Nat)
  outcome : Outcome
  finalConfig : GlobalConfig

/-! ### UTF-8 (strict, as CPython's `utf-8` codec) -/

/-- Encode one scalar value as UTF-8 bytes. -/
def utf8EncodeChar (c : Char) : List Nat :=
  let n := c.toNat
  if n < 128 then [n]
  else if n < 2048 then [192 + n / 64, 128 + n % 64]
  else if n < 65536 then [224 + n / 4096, 128 + n / 64 % 64, 128 + n % 64]
  else [240 + n / 262144, 128 + n / 4096 % 64, 128 + n / 64 % 64, 128 + n % 64]

/-- `str.encode('utf-8')`. -/
def utf8Encode (s : String) : List Nat :=
  s.data.flatMap utf8EncodeChar

/-- Strict UTF-8 decoding of a byte list: rejects bad continuation bytes,
overlong encodings, surrogates and codepoints above U+10FFFF, exactly the
inputs on which `bytes.decode('utf-8')` raises `UnicodeDecodeError`. -/
def utf8DecodeList : List Nat → Option (List Char)
  | [] => some []
  | b1 :: rest =>
    if b1 < 128 then
      (utf8DecodeList rest).map (fun cs => Char.ofNat b1 :: cs)
    else if 194 ≤ b1 && b1 ≤ 223 then
      match rest with
      | b2 :: rest2 =>
        if 128 ≤ b2 && b2 ≤ 191 then
          (utf8DecodeList rest2).map (fun cs => Char.ofNat ((b1 - 192) * 64 + (b2 - 128)) :: cs)
        else none
      | [] => none
    else if 224 ≤ b1 && b1 ≤ 239 then
      match rest with
      | b2 :: b3 :: rest3 =>
        let lo2 := if b1 = 224 then 160 else 128
        let hi2 := if b1 = 237 then 159 else 191
        if lo2 ≤ b2 && b2 ≤ hi2 && 128 ≤ b3 && b3 ≤ 191 then
          (utf8DecodeList rest3).map
            (fun cs => Char.ofNat ((b1 - 224) * 4096 + (b2 - 128) * 64 + (b3 - 128)) :: cs)
        else none
      | _ => none
    else if 240 ≤ b1 && b1 ≤ 244 then
      match rest with
      | b2 :: b3 :: b4 :: rest4 =>
        let lo2 := if b1 = 240 then 144 else 128
        let hi2 := if b1 = 244 then 143 else 191
        if lo2 ≤ b2 && b2 ≤ hi2 && 128 ≤ b3 && b3 ≤ 191 && 128 ≤ b4 && b4 ≤ 191 then
          (utf8DecodeList rest4).map
            (fun cs => Char.ofNat
              ((b1 - 240) * 262144 + (b2 - 128) * 4096 + (b3 - 128) * 64 + (b4 - 128)) :: cs)
        else none
      | _ => none
    else none

/-- `bytes.decode('utf-8')`: `none` models a raised `UnicodeDecodeError`. -/
def utf8Decode (b : List Nat) : Option String :=
  (utf8DecodeList b).map String.mk

/-! ### `json.dumps` (CPython defaults) -/

/-- One lowercase hex digit. -/
def hexDigit (n : Nat) : Char :=
  if n < 10 then Char.ofNat (48 + n) else Char.ofNat (87 + n)

/-- Four lowercase hex digits, as in a `\uXXXX` escape. -/
def hex4 (n : Nat) : String :=
  String.mk [hexDigit (n / 4096 % 16), hexDigit (n / 256 % 16), hexDigit (n / 16 % 16),
    hexDigit (n % 16)]

/-- How `json.dumps` (with `ensure_ascii=True`, the default) renders one
character inside a string literal. -/
def escChar (c : Char) : String :=
  let n := c.toNat
  if c = '"' then "\\\""
  else if c = '\\' then "\\\\"
  else if n = 8 then "\\b"
  else if n = 9 then "\\t"
  else if n = 10 then "\\n"
  else if n = 12 then "\\f"
  else if n = 13 then "\\r"
  else if n < 32 then "\\u" ++ hex4 n
  else if n < 128 then String.singleton c
  else if n < 65536 then "\\u" ++ hex4 n
  else
    let m := n - 65536
    "\\u" ++ hex4 (55296 + m / 1024) ++ "\\u" ++ hex4 (56320 + m % 1024)

/-- A JSON string literal for `s`, quotes included. -/
def dumpsStr (s : String) : String :=
  "\"" ++ String.join (s.data.map escChar) ++ "\""

mutual
/-- `json.dumps` with default arguments: separators `", "` and `": "`,
insertion order preserved. `none` models a raised `TypeError` on a value
the encoder does not know how to serialise. -/
def dumps : PyVal → Option String
  | .none => some "null"
  | .bool b => some (if b then "true" else "false")
  | .int n => some (toString n)
  | .str s => some (dumpsStr s)
  | .list xs =>
    (dumpsList xs).map (fun parts => "[" ++ String.intercalate ", " parts ++ "]")
  | .dict m =>
    (dumpsDict m).map (fun parts => "\x7b" ++ String.intercalate ", " parts ++ "\x7d")
  | .nonJson => Option.none

/-- Serialise the elements of an array, left to right. -/
def dumpsList : List PyVal → Option (List String)
  | [] => some []
  | v :: vs =>
    match dumps v, dumpsList vs with
    | some s, some ss => some (s :: ss)
    | _, _ => Option.none

/-- Serialise the members of an object, left to right. -/
def dumpsDict : List (String × PyVal) → Option (List String)
  | [] => some []
  | (k, v) :: kvs =>
    match dumps v, dumpsDict kvs with
    | some s, some ss => some ((dumpsStr k ++ ": " ++ s) :: ss)
    | _, _ => Option.none
end

/-! ### `json.loads` -/

/-- JSON whitespace. -/
def isJsonWs (c : Char) : Bool :=
  c = ' ' || c = '\t' || c = '\n' || c = '\r'

/-- Skip leading JSON whitespace. -/
def skipWs : List Char → List Char
  | c :: cs => if isJsonWs c then skipWs cs else c :: cs
  | [] => []

/-- Value of one hex digit, if any. -/
def hexVal (c : Char) : Option Nat :=
  if '0' ≤ c && c ≤ '9' then some (c.toNat - 48)
  else if 'a' ≤ c && c ≤ 'f' then some (c.toNat - 87)
  else if 'A' ≤ c && c ≤ 'F' then some (c.toNat - 70)
  else none

/-- The opening brace character. -/
def lbrace : Char := Char.ofNat 123

/-- The closing brace character. -/
def rbrace : Char := Char.ofNat 125

/-- Consume an expected literal suffix (`rue`, `alse`, `ull`). -/
def eatLit : List Char → List Char → Option (List Char)
  | [], cs => some cs
  | l :: ls, c :: cs => if c = l then eatLit ls cs else Option.none
  | _ :: _, [] => Option.none

/-- Parse the rest of a JSON string literal, after the opening quote.
Strict mode: an unescaped control character is an error; a `\uXXXX` escape
in the surrogate range is rejected (model restriction, see the header). -/
def parseStringRest : Nat → List Char → Option (String × List Char)
  | 0, _ => Option.none
  | _ + 1, [] => Option.none
  | fuel + 1, c :: cs =>
    if c = '"' then some ("", cs)
    else if c = '\\' then
      match cs with
      | e :: cs2 =>
        let cont := fun (ch : Char) (rest : List Char) =>
          (parseStringRest fuel rest).map (fun p => (String.singleton ch ++ p.1, p.2))
        if e = '"' then cont '"' cs2
        else if e = '\\' then cont '\\' cs2
        else if e = '/' then cont '/' cs2
        else if e = 'b' then cont (Char.ofNat 8) cs2
        else if e = 'f' then cont (Char.ofNat 12) cs2
        else if e = 'n' then cont '\n' cs2
        else if e = 'r' then cont '\r' cs2
        else if e = 't' then cont '\t' cs2
        else if e = 'u' then
          match cs2 with
          | h1 :: h2 :: h3 :: h4 :: cs3 =>
            match hexVal h1, hexVal h2, hexVal h3, hexVal h4 with
            | some a, some b, some c2, some d =>
              let n := a * 4096 + b * 256 + c2 * 16 + d
              if 55296 ≤ n && n ≤ 57343 then Option.none
              else cont (Char.ofNat n) cs3
            | _, _, _, _ => Option.none
          | _ => Option.none
        else Option.none
      | [] => Option.none
    else if c.toNat < 32 then Option.none
    else (parseStringRest fuel cs).map (fun p => (String.singleton c ++ p.1, p.2))

/-- Greedily take decimal digits. -/
def takeDigits : List Char → List Char × List Char
  | c :: cs =>
    if c.isDigit then
      let p := takeDigits cs
      (c :: p.1, p.2)
    else ([], c :: cs)
  | [] => ([], [])

/-- Digits to a natural number. -/
def digitsToNat (ds : List Char) : Nat :=
  ds.foldl (fun acc c => acc * 10 + (c.toNat - 48)) 0

/-- Parse a JSON number. Leading zeros are rejected, as in the JSON grammar.
A fraction or exponent marks a float: outside the model (see the header). -/
def parseNumber (cs : List Char) : Option (PyVal × List Char) :=
  let p := match cs with
    | c :: r => if c = '-' then (true, r) else (false, cs)
    | [] => (false, cs)
  let neg := p.1
  let q := takeDigits p.2
  let ds := q.1
  let rest := q.2
  if ds.isEmpty then Option.none
  else if ds.headD '0' = '0' && ds.length > 1 then Option.none
  else
    match rest with
    | c :: _ =>
      if c = '.' || c = 'e' || c = 'E' then Option.none
      else
        let v : Int := (if neg then -1 else 1) * (digitsToNat ds : Int)
        some (.int v, rest)
    | [] =>
      let v : Int := (if neg then -1 else 1) * (digitsToNat ds : Int)
      some (.int v, rest)

/-- Insert a member into an object under construction: a repeated key
replaces the earlier value in place (CPython dict assignment), otherwise
the member is appended, preserving insertion order. -/
def dictInsert (m : List (String × PyVal)) (k : String) (v : PyVal) :
    List (String × PyVal) :=
  match m with
  | [] => [(k, v)]
  | (k1, v1) :: rest => if k1 = k then (k, v) :: rest else (k1, v1) :: dictInsert rest k v

mutual
/-- Parse one JSON value. The fuel only bounds recursion; every recursive
call consumes at least one input character first, so `length + 1` fuel (what
`loads` passes) never runs out before the input does. -/
def parseValue : Nat → List Char → Option (PyVal × List Char)
  | 0, _ => Option.none
  | fuel + 1, cs =>
    match skipWs cs with
    | [] => Option.none
    | c :: cs1 =>
      if c = '"' then
        (parseStringRest (fuel + 1) cs1).map (fun p => (PyVal.str p.1, p.2))
      else if c = lbrace then
        match skipWs cs1 with
        | c2 :: cs2 =>
          if c2 = rbrace then some (.dict [], cs2)
          else parseMembers fuel [] (c2 :: cs2)
        | [] => Option.none
      else if c = '[' then
        match skipWs cs1 with
        | c2 :: cs2 =>
          if c2 = ']' then some (.list [], cs2)
          else parseElements fuel [] (c2 :: cs2)
        | [] => Option.none
      else if c = 't' then
        (eatLit ['r', 'u', 'e'] cs1).map (fun r => (PyVal.bool true, r))
      else if c = 'f' then
        (eatLit ['a', 'l', 's', 'e'] cs1).map (fun r => (PyVal.bool false, r))
      else if c = 'n' then
        (eatLit ['u', 'l', 'l'] cs1).map (fun r => (PyVal.none, r))
      else if c = '-' || c.isDigit then
        parseNumber (c :: cs1)
      else Option.none

/-- Parse one-or-more object members (the empty object is handled by
`parseValue`); a repeated key overwrites via `dictInsert`. -/
def parseMembers : Nat → List (String × PyVal) → List Char → Option (PyVal × List Char)
  | 0, _, _ => Option.none
  | fuel + 1, acc, cs =>
    match skipWs cs with
    | c :: cs1 =>
      if c = '"' then
        match parseStringRest (fuel + 1) cs1 with
        | some (k, r1) =>
          match skipWs r1 with
          | ':' :: r2 =>
            match parseValue fuel r2 with
            | some (v, r3) =>
              let acc1 := dictInsert acc k v
              match skipWs r3 with
              | ',' :: r4 => parseMembers fuel acc1 r4
              | c2 :: r4 =>
                if c2 = rbrace then some (.dict acc1, r4) else Option.none
              | [] => Option.none
            | Option.none => Option.none
          | _ => Option.none
        | Option.none => Option.none
      else Option.none
    | [] => Option.none

/-- Parse one-or-more array elements (the empty array is handled by
`parseValue`). -/
def parseElements : Nat → List PyVal → List Char → Option (PyVal × List Char)
  | 0, _, _ => Option.none
  | fuel + 1, acc, cs =>
    match parseValue fuel cs with
    | some (v, r1) =>
      match skipWs r1 with
      | ',' :: r2 => parseElements fuel (acc ++ [v]) r2
      | c2 :: r2 =>
        if c2 = ']' then some (.list (acc ++ [v]), r2) else Option.none
      | [] => Option.none
    | Option.none => Option.none
end

/-- `json.loads` on a `str`: `none` models a raised `json.JSONDecodeError`
(leading and trailing whitespace allowed, nothing else may remain). -/
def loads (s : String) : Option PyVal :=
  match parseValue (s.length + 1) s.data with
  | some (v, rest) => if skipWs rest = [] then some v else Option.none
  | Option.none => Option.none

/-! ### The handler -/

/-- Outcome of Step 2 (lines 49-63): the payload normalised to a Python
value, a `json.JSONDecodeError` (caught at line 57), or any other failure
in the `try` block — here a `UnicodeDecodeError` from `bytes.decode` —
(caught by the generic `except Exception` at line 61). An already-decoded
mapping is used directly, without parsing. -/
inductive NormResult where
  | ok (payload : PyVal)
  | jsonError
  | decodeError

/-- Step 2 of the handler: normalise the payload (lines 50-56). -/
def normalizeStep : PyData → NormResult
  | .dict m => .ok (.dict m)
  | .bytes b =>
    match utf8Decode b with
    | some s =>
      match loads s with
      | some v => .ok v
      | Option.none => .jsonError
    | Option.none => .decodeError
  | .str s =>
    match loads s with
    | some v => .ok v
    | Option.none => .jsonError

/-- `payload.get(k)` on a mapping: the value under `k`, or `None`. -/
def pyGet (m : List (String × PyVal)) (k : String) : PyVal :=
  match m.lookup k with
  | some v => v
  | Option.none => .none

/-- The outbound summary record (lines 79-83), in the dict literal's
insertion order. -/
def summaryRecord (m : List (String × PyVal)) : PyVal :=
  .dict [("fileName", pyGet m "name"), ("fileSize", pyGet m "size"),
    ("fileFormat", pyGet m "contentType")]

/-- Lines 66-93: field extraction, the four info log lines, record
construction and serialisation (uncaught `TypeError` when a value is not
serialisable), then the guarded publish call. Reached only with a truthy
mapping payload. -/
def afterExtract (cfg : GlobalConfig) (log0 : List LogEntry)
    (m : List (String × PyVal)) (pub : PubOutcome) : RunResult :=
  let file_name := pyGet m "name"
  let bucket_name := pyGet m "bucket"
  let file_size := pyGet m "size"
  let content_type := pyGet m "contentType"
  let log1 := log0 ++ [.processingFile file_name, .bucketLine bucket_name,
    .sizeLine file_size, .formatLine content_type]
  match dumps (summaryRecord m) with
  | Option.none => ⟨log1, [], .exn .typeError, cfg⟩
  | some s =>
    let message_data := utf8Encode s
    match pub with
    | .success mid =>
      ⟨log1 ++ [.publishSuccess mid cfg.PUBSUB_TOPIC_ID],
        [(cfg.topic_path, message_data)], .normal, cfg⟩
    | .failure e =>
      ⟨log1 ++ [.publishFailure e], [(cfg.topic_path, message_data)], .normal, cfg⟩

/-- Lines 49-93 for a truthy payload: normalise, then either one of the two
caught-and-logged failure returns, or field extraction. A payload that
parses to a non-mapping raises an uncaught `AttributeError` at
`payload.get` (line 66). -/
def afterNormalize (cfg : GlobalConfig) (log0 : List LogEntry) (d : PyData)
    (pub : PubOutcome) : RunResult :=
  match normalizeStep d with
  | .jsonError => ⟨log0 ++ [.jsonDecodeError, .rawData d], [], .normal, cfg⟩
  | .decodeError => ⟨log0 ++ [.unexpectedError], [], .normal, cfg⟩
  | .ok (.dict m) => afterExtract cfg log0 m pub
  | .ok _ => ⟨log0, [], .exn .attributeError, cfg⟩

/-- The handler `process_gcs_event` (lines 27-93). `pub` is the
environment's answer to the publish call, should one be made. -/
def process_gcs_event (cfg : GlobalConfig) (cloud_event : CloudEvent)
    (pub : PubOutcome) : RunResult :=
  let log0 : List LogEntry := [.receivedEvent cloud_event.attributes]
  match cloud_event.data with
  | Option.none => ⟨log0 ++ [.noData], [], .normal, cfg⟩
  | some d =>
    if d.isTruthy then afterNormalize cfg log0 d pub
    else ⟨log0 ++ [.noData], [], .normal, cfg⟩

/-- A concrete configuration for the closed instances below. -/
def cfg0 : GlobalConfig := initGlobals (some "proj") (some "file-topic")

/-! ### Branch lemmas -/

/-- The publish calls an invocation makes once it reaches field extraction
with payload mapping `m`: one call with the serialised summary record,
unless serialisation raises. -/
def publishedCalls (cfg : GlobalConfig) (m : List (String × PyVal)) :
    List (String × List Nat) :=
  match dumps (summaryRecord m) with
  | some s => [(cfg.topic_path, utf8Encode s)]
  | Option.none => []

lemma run_no_payload (cfg : GlobalConfig) (attrs : List (String × String))
    (pub : PubOutcome) :
    process_gcs_event cfg ⟨attrs, Option.none⟩ pub
      = ⟨[.receivedEvent attrs, .noData], [], .normal, cfg⟩ := rfl

lemma run_falsy (cfg : GlobalConfig) (attrs : List (String × String))
    (pub : PubOutcome) (d : PyData) (h : d.isTruthy = false) :
    process_gcs_event cfg ⟨attrs, some d⟩ pub
      = ⟨[.receivedEvent attrs, .noData], [], .normal, cfg⟩ := by
  simp [process_gcs_event, h]

lemma run_truthy (cfg : GlobalConfig) (attrs : List (String × String))
    (pub : PubOutcome) (d : PyData) (h : d.isTruthy = true) :
    process_gcs_event cfg ⟨attrs, some d⟩ pub
      = afterNormalize cfg [.receivedEvent attrs] d pub := by
  simp [process_gcs_event, h]

lemma afterNormalize_jsonError (cfg : GlobalConfig) (log0 : List LogEntry)
    (pub : PubOutcome) (d : PyData) (h : normalizeStep d = .jsonError) :
    afterNormalize cfg log0 d pub
      = ⟨log0 ++ [.jsonDecodeError, .rawData d], [], .normal, cfg⟩ := by
  simp [afterNormalize, h]

lemma afterNormalize_decodeError (cfg : GlobalConfig) (log0 : List LogEntry)
    (pub : PubOutcome) (d : PyData) (h : normalizeStep d = .decodeError) :
    afterNormalize cfg log0 d pub = ⟨log0 ++ [.unexpectedError], [], .normal, cfg⟩ := by
  simp [afterNormalize, h]

lemma afterExtract_published (cfg : GlobalConfig) (log0 : List LogEntry)
    (m : List (String × PyVal)) (pub : PubOutcome) :
    (afterExtract cfg log0 m pub).published = publishedCalls cfg m := by
  unfold afterExtract publishedCalls
  cases h : dumps (summaryRecord m) <;> cases pub <;> simp [h]

lemma run_dict (cfg : GlobalConfig) (attrs : List (String × String))
    (pub : PubOutcome) (m : List (String × PyVal)) (hm : m ≠ []) :
    process_gcs_event cfg ⟨attrs, some (.dict m)⟩ pub
      = afterExtract cfg [.receivedEvent attrs] m pub := by
  have ht : (PyData.dict m).isTruthy = true := by
    simp [PyData.isTruthy, hm]
  rw [run_truthy _ _ _ _ ht]
  simp [afterNormalize, normalizeStep]

/-! ### Claims -/

/-- C4: for every inbound event whose data payload is absent, null, or empty
(empty mapping, empty bytes, or empty text — all falsy in Python), the
handler performs zero publish calls and returns normally. -/
theorem relay_no_payload_is_noop (cfg : GlobalConfig)
    (attrs : List (String × String)) (pub : PubOutcome) (data : Option PyData)
    (h : data = Option.none ∨ ∃ d, data = some d ∧ d.isTruthy = false) :
    (process_gcs_event cfg ⟨attrs, data⟩ pub).published = []
    ∧ (process_gcs_event cfg ⟨attrs, data⟩ pub).outcome = .normal := by
  rcases h with h | ⟨d, hd, hfalsy⟩
  · subst h
    rw [run_no_payload]
    exact ⟨rfl, rfl⟩
  · subst hd
    rw [run_falsy _ _ _ _ hfalsy]
    exact ⟨rfl, rfl⟩

/-- Witness for C4 at a concrete input: the absent payload. -/
theorem relay_no_payload_is_noop_witness :
    (process_gcs_event cfg0 ⟨[], Option.none⟩ (.success "mid")).published = []
    ∧ (process_gcs_event cfg0 ⟨[], Option.none⟩ (.success "mid")).outcome = .normal :=
  relay_no_payload_is_noop cfg0 [] (.success "mid") Option.none (Or.inl rfl)

/-- C7: on every input and along every branch, the handler performs at most
one publish call per invocation. -/
theorem relay_at_most_one_publish (cfg : GlobalConfig) (ev : CloudEvent)
    (pub : PubOutcome) :
    (process_gcs_event cfg ev pub).published.length ≤ 1 := by
  obtain ⟨attrs, data⟩ := ev
  cases data with
  | none => simp [process_gcs_event]
  | some d =>
    by_cases ht : d.isTruthy
    · rw [run_truthy _ _ _ _ ht]
      unfold afterNormalize
      cases hn : normalizeStep d with
      | jsonError => simp
      | decodeError => simp
      | ok v =>
        cases v <;> simp only <;> try simp
        rw [afterExtract_published]
        unfold publishedCalls
        cases dumps (summaryRecord _) <;> simp
    · rw [run_falsy _ _ _ _ (by simpa using ht)]
      simp

/-- C8: an invocation never mutates the module-level state: the publisher
configuration (PROJECT_ID, PUBSUB_TOPIC_ID, topic path) after the call is
the state it started with, and the result carries no other retained state. -/
theorem relay_config_unchanged (cfg : GlobalConfig) (ev : CloudEvent)
    (pub : PubOutcome) :
    (process_gcs_event cfg ev pub).finalConfig = cfg
    ∧ (process_gcs_event cfg ev pub).finalConfig.PROJECT_ID = cfg.PROJECT_ID
    ∧ (process_gcs_event cfg ev pub).finalConfig.PUBSUB_TOPIC_ID = cfg.PUBSUB_TOPIC_ID
    ∧ (process_gcs_event cfg ev pub).finalConfig.topic_path = cfg.topic_path := by
  have h : (process_gcs_event cfg ev pub).finalConfig = cfg := by
    obtain ⟨attrs, data⟩ := ev
    cases data with
    | none => rfl
    | some d =>
      by_cases ht : d.isTruthy
      · rw [run_truthy _ _ _ _ ht]
        unfold afterNormalize
        cases hn : normalizeStep d with
        | jsonError => simp
        | decodeError => simp
        | ok v =>
          cases v <;> (try rfl)
          unfold afterExtract
          dsimp only
          cases pub <;> (split <;> rfl)
      · rw [run_falsy _ _ _ _ (by simpa using ht)]
  exact ⟨h, by rw [h], by rw [h], by rw [h]⟩

/-- C1 counterexample: two structured-mapping payloads on which the claim's
universal statement fails. The empty mapping is falsy in Python, so the
handler takes the no-data branch and publishes nothing; and a mapping whose
`name` value is not JSON-serialisable makes `json.dumps` raise before the
publish call, so again nothing is published. -/
theorem relay_summary_projection_cex :
    (process_gcs_event cfg0 ⟨[], some (.dict [])⟩ (.success "mid")).published = []
    ∧ (process_gcs_event cfg0
        ⟨[], some (.dict [("name", PyVal.nonJson)])⟩ (.success "mid")).published = [] :=
  ⟨rfl, rfl⟩

/-- C1 (amended): for every nonempty structured-mapping payload whose
serialised summary record exists (i.e. whose extracted values are
JSON-serialisable), the handler makes exactly one publish call, whose body
is the UTF-8 JSON serialisation of the mapping with exactly the three keys
`fileName`, `fileSize`, `fileFormat` taken from the payload's `name`,
`size`, `contentType`, where every key absent from the payload yields a
null field (`payload.get` returns `None`). -/
theorem relay_summary_projection (cfg : GlobalConfig)
    (attrs : List (String × String)) (pub : PubOutcome)
    (m : List (String × PyVal)) (s : String) (hm : m ≠ [])
    (hs : dumps (summaryRecord m) = some s) :
    (process_gcs_event cfg ⟨attrs, some (.dict m)⟩ pub).published
      = [(cfg.topic_path, utf8Encode s)]
    ∧ summaryRecord m
      = .dict [("fileName", pyGet m "name"), ("fileSize", pyGet m "size"),
          ("fileFormat", pyGet m "contentType")]
    ∧ (∀ k, m.lookup k = Option.none → pyGet m k = PyVal.none) := by
  refine ⟨?_, rfl, ?_⟩
  · rw [run_dict _ _ _ _ hm, afterExtract_published]
    unfold publishedCalls
    rw [hs]
  · intro k hk
    unfold pyGet
    rw [hk]

/-- Witness for C1 (amended) at a payload carrying only `name`: one publish
call, with null `fileSize` and `fileFormat`. -/
theorem relay_summary_projection_witness :
    (process_gcs_event cfg0
        ⟨[], some (.dict [("name", PyVal.str "a.jpg")])⟩ (.success "mid")).published
      = [(cfg0.topic_path,
          utf8Encode "\x7b\"fileName\": \"a.jpg\", \"fileSize\": null, \"fileFormat\": null\x7d")]
    ∧ summaryRecord [("name", PyVal.str "a.jpg")]
      = .dict [("fileName", pyGet [("name", PyVal.str "a.jpg")] "name"),
          ("fileSize", pyGet [("name", PyVal.str "a.jpg")] "size"),
          ("fileFormat", pyGet [("name", PyVal.str "a.jpg")] "contentType")]
    ∧ (∀ k, ([("name", PyVal.str "a.jpg")] : List (String × PyVal)).lookup k = Option.none →
        pyGet [("name", PyVal.str "a.jpg")] k = PyVal.none) :=
  relay_summary_projection cfg0 [] (.success "mid") [("name", PyVal.str "a.jpg")]
    "\x7b\"fileName\": \"a.jpg\", \"fileSize\": null, \"fileFormat\": null\x7d"
    (List.cons_ne_nil _ _) rfl

/-- The concrete inbound payload of C2, as JSON text. -/
def c2Input : String :=
  "\x7b\"name\":\"a.jpg\",\"bucket\":\"b\",\"size\":\"1024\",\"contentType\":\"image/jpeg\"\x7d"

/-- C2: on the UTF-8 bytes of
`{"name":"a.jpg","bucket":"b","size":"1024","contentType":"image/jpeg"}`
the handler publishes exactly one message, and its body decoded as UTF-8
JSON equals `{"fileName":"a.jpg","fileSize":"1024","fileFormat":"image/jpeg"}`,
with a normal return. -/
theorem relay_concrete_roundtrip :
    (process_gcs_event cfg0
        ⟨[], some (.bytes (utf8Encode c2Input))⟩ (.success "mid")).published.length = 1
    ∧ (utf8Decode ((process_gcs_event cfg0
        ⟨[], some (.bytes (utf8Encode c2Input))⟩ (.success "mid")).published.headD
          ("", [])).2).bind loads
      = some (.dict [("fileName", .str "a.jpg"), ("fileSize", .str "1024"),
          ("fileFormat", .str "image/jpeg")])
    ∧ (process_gcs_event cfg0
        ⟨[], some (.bytes (utf8Encode c2Input))⟩ (.success "mid")).outcome = .normal :=
  ⟨rfl, rfl, rfl⟩

/-- C10 counterexample: the empty mapping and `{"bucket": "b"}` agree on the
`name`, `size` and `contentType` lookups (all three absent), yet the former
publishes nothing (falsy payload) while the latter publishes one message —
so the publish calls are not determined by the three fields alone. -/
theorem relay_noninterference_cex :
    pyGet [] "name" = pyGet [("bucket", PyVal.str "b")] "name"
    ∧ pyGet [] "size" = pyGet [("bucket", PyVal.str "b")] "size"
    ∧ pyGet [] "contentType" = pyGet [("bucket", PyVal.str "b")] "contentType"
    ∧ (process_gcs_event cfg0 ⟨[], some (.dict [])⟩ (.success "mid")).published
      ≠ (process_gcs_event cfg0
          ⟨[], some (.dict [("bucket", PyVal.str "b")])⟩ (.success "mid")).published := by
  refine ⟨rfl, rfl, rfl, fun h => ?_⟩
  exact List.cons_ne_nil _ _ h.symm

/-- C10 (amended): over nonempty structured-mapping payloads, the publish
calls depend only on the payload's `name`, `size` and `contentType` values:
two such payloads that agree on those three lookups produce identical
publish calls (identical bodies, byte for byte), whatever their other keys,
the event attributes, and the publish outcome. -/
theorem relay_noninterference (cfg : GlobalConfig)
    (attrs1 attrs2 : List (String × String)) (pub1 pub2 : PubOutcome)
    (m1 m2 : List (String × PyVal)) (h1 : m1 ≠ []) (h2 : m2 ≠ [])
    (hn : pyGet m1 "name" = pyGet m2 "name")
    (hs : pyGet m1 "size" = pyGet m2 "size")
    (hc : pyGet m1 "contentType" = pyGet m2 "contentType") :
    (process_gcs_event cfg ⟨attrs1, some (.dict m1)⟩ pub1).published
      = (process_gcs_event cfg ⟨attrs2, some (.dict m2)⟩ pub2).published := by
  rw [run_dict _ _ _ _ h1, run_dict _ _ _ _ h2, afterExtract_published,
    afterExtract_published]
  unfold publishedCalls summaryRecord
  rw [hn, hs, hc]

/-- Witness for C10 (amended): same three fields, different `bucket`,
attributes and publish outcomes — identical publish calls. -/
theorem relay_noninterference_witness :
    (process_gcs_event cfg0
        ⟨[("a", "1")], some (.dict [("name", PyVal.str "x"), ("bucket", PyVal.str "b1")])⟩
        (.success "mid")).published
      = (process_gcs_event cfg0
          ⟨[("a", "2")], some (.dict [("bucket", PyVal.str "b2"), ("name", PyVal.str "x")])⟩
          (.failure "boom")).published :=
  relay_noninterference cfg0 [("a", "1")] [("a", "2")] (.success "mid") (.failure "boom")
    [("name", PyVal.str "x"), ("bucket", PyVal.str "b1")]
    [("bucket", PyVal.str "b2"), ("name", PyVal.str "x")]
    (List.cons_ne_nil _ _) (List.cons_ne_nil _ _) rfl rfl rfl

/-- C3 counterexample: the bytes `[255]` fail UTF-8 decoding, the handler
publishes nothing and returns normally — but the raw input is not logged:
the `UnicodeDecodeError` lands in the generic `except Exception` handler
(line 61), which prints only the error, unlike the `json.JSONDecodeError`
handler (lines 57-59) which also prints `Raw data:`. -/
theorem relay_malformed_raw_log_cex :
    utf8Decode [255] = Option.none
    ∧ (process_gcs_event cfg0 ⟨[], some (.bytes [255])⟩ (.success "mid")).published = []
    ∧ (process_gcs_event cfg0 ⟨[], some (.bytes [255])⟩ (.success "mid")).outcome = .normal
    ∧ LogEntry.rawData (.bytes [255])
        ∉ (process_gcs_event cfg0 ⟨[], some (.bytes [255])⟩ (.success "mid")).logs := by
  refine ⟨rfl, rfl, rfl, fun h => ?_⟩
  have hl : (process_gcs_event cfg0 ⟨[], some (.bytes [255])⟩ (.success "mid")).logs
      = [.receivedEvent [], .unexpectedError] := rfl
  rw [hl] at h
  simp at h

/-- C3 (amended): every malformed payload — text or bytes that fail JSON
parsing, or bytes that fail UTF-8 decoding — yields zero publish calls and
a normal return; for JSON parse failures the raw input is logged alongside
the parse error, while for UTF-8 decode failures the failure is logged as
an unexpected error without the raw input. -/
theorem relay_malformed_payload_noop (cfg : GlobalConfig)
    (attrs : List (String × String)) (pub : PubOutcome) (d : PyData)
    (ht : d.isTruthy = true) :
    (normalizeStep d = .jsonError →
      (process_gcs_event cfg ⟨attrs, some d⟩ pub).published = []
      ∧ (process_gcs_event cfg ⟨attrs, some d⟩ pub).outcome = .normal
      ∧ LogEntry.jsonDecodeError ∈ (process_gcs_event cfg ⟨attrs, some d⟩ pub).logs
      ∧ LogEntry.rawData d ∈ (process_gcs_event cfg ⟨attrs, some d⟩ pub).logs)
    ∧ (normalizeStep d = .decodeError →
      (process_gcs_event cfg ⟨attrs, some d⟩ pub).published = []
      ∧ (process_gcs_event cfg ⟨attrs, some d⟩ pub).outcome = .normal
      ∧ LogEntry.unexpectedError ∈ (process_gcs_event cfg ⟨attrs, some d⟩ pub).logs
      ∧ LogEntry.rawData d ∉ (process_gcs_event cfg ⟨attrs, some d⟩ pub).logs) := by
  constructor
  · intro hn
    rw [run_truthy _ _ _ _ ht, afterNormalize_jsonError _ _ _ _ hn]
    exact ⟨rfl, rfl, by simp, by simp⟩
  · intro hn
    rw [run_truthy _ _ _ _ ht, afterNormalize_decodeError _ _ _ _ hn]
    refine ⟨rfl, rfl, by simp, fun h => ?_⟩
    simp at h

/-- Witness for C3 (amended) at the malformed JSON text `"nope"`: no
publish, normal return, parse error and raw input both logged. -/
theorem relay_malformed_payload_noop_witness :
    (process_gcs_event cfg0 ⟨[], some (.str "nope")⟩ (.success "mid")).published = []
    ∧ (process_gcs_event cfg0 ⟨[], some (.str "nope")⟩ (.success "mid")).outcome = .normal
    ∧ LogEntry.jsonDecodeError
        ∈ (process_gcs_event cfg0 ⟨[], some (.str "nope")⟩ (.success "mid")).logs
    ∧ LogEntry.rawData (.str "nope")
        ∈ (process_gcs_event cfg0 ⟨[], some (.str "nope")⟩ (.success "mid")).logs :=
  (relay_malformed_payload_noop cfg0 [] (.success "mid") (.str "nope") rfl).1 rfl

/-- C5: whenever the publish call is reached (so a call is recorded) and it
or the wait on its future fails, the handler logs the failure and returns
normally: no exception propagates, and no second publish attempt is made. -/
theorem relay_publish_failure_contained (cfg : GlobalConfig) (ev : CloudEvent)
    (e : String)
    (hreach : (process_gcs_event cfg ev (.failure e)).published ≠ []) :
    (process_gcs_event cfg ev (.failure e)).outcome = .normal
    ∧ LogEntry.publishFailure e ∈ (process_gcs_event cfg ev (.failure e)).logs
    ∧ (process_gcs_event cfg ev (.failure e)).published.length = 1 := by
  obtain ⟨attrs, data⟩ := ev
  cases data with
  | none => exact absurd rfl hreach
  | some d =>
    by_cases ht : d.isTruthy
    · rw [run_truthy _ _ _ _ ht] at hreach ⊢
      unfold afterNormalize at hreach ⊢
      cases hn : normalizeStep d with
      | jsonError => rw [hn] at hreach; exact absurd rfl hreach
      | decodeError => rw [hn] at hreach; exact absurd rfl hreach
      | ok v =>
        rw [hn] at hreach
        cases v with
        | dict m =>
          dsimp only at hreach ⊢
          unfold afterExtract at hreach ⊢
          cases hd : dumps (summaryRecord m) with
          | none => rw [hd] at hreach; exact absurd rfl hreach
          | some s => rw [hd] at hreach; exact ⟨rfl, by simp, rfl⟩
        | none => exact absurd rfl hreach
        | bool b => exact absurd rfl hreach
        | int n => exact absurd rfl hreach
        | str s => exact absurd rfl hreach
        | list xs => exact absurd rfl hreach
        | nonJson => exact absurd rfl hreach
    · rw [run_falsy _ _ _ _ (by simpa using ht)] at hreach
      exact absurd rfl hreach

/-- Witness for C5: a simulated queue fault on a well-formed payload. -/
theorem relay_publish_failure_contained_witness :
    (process_gcs_event cfg0 ⟨[], some (.dict [("name", PyVal.str "f")])⟩
        (.failure "boom")).outcome = .normal
    ∧ LogEntry.publishFailure "boom"
        ∈ (process_gcs_event cfg0 ⟨[], some (.dict [("name", PyVal.str "f")])⟩
            (.failure "boom")).logs
    ∧ (process_gcs_event cfg0 ⟨[], some (.dict [("name", PyVal.str "f")])⟩
        (.failure "boom")).published.length = 1 :=
  relay_publish_failure_contained cfg0 ⟨[], some (.dict [("name", PyVal.str "f")])⟩
    "boom" (List.cons_ne_nil _ _)

/-- C6: every failure of the normalisation step — the JSON parse error and
the only other fault the step can produce, the UTF-8 decode error — is
caught and logged, and the handler returns without publishing; no
parsing fault reaches the caller. -/
theorem relay_normalization_faults_contained (cfg : GlobalConfig)
    (attrs : List (String × String)) (pub : PubOutcome) (d : PyData)
    (ht : d.isTruthy = true)
    (h : normalizeStep d = .jsonError ∨ normalizeStep d = .decodeError) :
    (process_gcs_event cfg ⟨attrs, some d⟩ pub).published = []
    ∧ (process_gcs_event cfg ⟨attrs, some d⟩ pub).outcome = .normal
    ∧ (LogEntry.jsonDecodeError ∈ (process_gcs_event cfg ⟨attrs, some d⟩ pub).logs
       ∨ LogEntry.unexpectedError ∈ (process_gcs_event cfg ⟨attrs, some d⟩ pub).logs) := by
  rcases h with hn | hn
  · rw [run_truthy _ _ _ _ ht, afterNormalize_jsonError _ _ _ _ hn]
    exact ⟨rfl, rfl, Or.inl (by simp)⟩
  · rw [run_truthy _ _ _ _ ht, afterNormalize_decodeError _ _ _ _ hn]
    exact ⟨rfl, rfl, Or.inr (by simp)⟩

/-- Witness for C6 at the bytes `[192]`, an invalid UTF-8 start byte (a
failure of the step other than a JSON parse error). -/
theorem relay_normalization_faults_contained_witness :
    (process_gcs_event cfg0 ⟨[], some (.bytes [192])⟩ (.success "mid")).published = []
    ∧ (process_gcs_event cfg0 ⟨[], some (.bytes [192])⟩ (.success "mid")).outcome = .normal
    ∧ (LogEntry.jsonDecodeError
        ∈ (process_gcs_event cfg0 ⟨[], some (.bytes [192])⟩ (.success "mid")).logs
       ∨ LogEntry.unexpectedError
        ∈ (process_gcs_event cfg0 ⟨[], some (.bytes [192])⟩ (.success "mid")).logs) :=
  relay_normalization_faults_contained cfg0 [] (.success "mid") (.bytes [192]) rfl
    (Or.inr rfl)

/-- C9: record construction and serialisation sit outside every exception
handler. First: on a mapping whose `name` value `json.dumps` cannot
serialise, the handler raises an uncaught `TypeError` and publishes
nothing, rather than logging and swallowing. Second: whenever the three
extracted values are serialisable, the serialisation of the summary record
succeeds. Third: with a serialisable record, a nonempty mapping payload
always completes normally — the step cannot fail. -/
theorem relay_serialization_outside_handlers :
    ((process_gcs_event cfg0 ⟨[], some (.dict [("name", PyVal.nonJson)])⟩
        (.success "mid")).outcome = .exn .typeError
     ∧ (process_gcs_event cfg0 ⟨[], some (.dict [("name", PyVal.nonJson)])⟩
        (.success "mid")).published = [])
    ∧ (∀ m : List (String × PyVal),
        (dumps (pyGet m "name")).isSome = true →
        (dumps (pyGet m "size")).isSome = true →
        (dumps (pyGet m "contentType")).isSome = true →
        (dumps (summaryRecord m)).isSome = true)
    ∧ (∀ (cfg : GlobalConfig) (attrs : List (String × String)) (pub : PubOutcome)
        (m : List (String × PyVal)), m ≠ [] →
        (dumps (summaryRecord m)).isSome = true →
        (process_gcs_event cfg ⟨attrs, some (.dict m)⟩ pub).outcome = .normal) := by
  refine ⟨⟨rfl, rfl⟩, ?_, ?_⟩
  · intro m h1 h2 h3
    obtain ⟨s1, e1⟩ := Option.isSome_iff_exists.mp h1
    obtain ⟨s2, e2⟩ := Option.isSome_iff_exists.mp h2
    obtain ⟨s3, e3⟩ := Option.isSome_iff_exists.mp h3
    unfold summaryRecord
    simp [dumps, dumpsDict, e1, e2, e3]
  · intro cfg attrs pub m hm hser
    obtain ⟨s, hs⟩ := Option.isSome_iff_exists.mp hser
    rw [run_dict _ _ _ _ hm]
    unfold afterExtract
    rw [hs]
    cases pub <;> rfl

/-- Witness for C9's universally quantified parts at a one-key mapping with
serialisable values. -/
theorem relay_serialization_outside_handlers_witness :
    (dumps (summaryRecord [("name", PyVal.str "a")])).isSome = true
    ∧ (process_gcs_event cfg0 ⟨[], some (.dict [("name", PyVal.str "a")])⟩
        (.success "mid")).outcome = .normal :=
  ⟨relay_serialization_outside_handlers.2.1 [("name", PyVal.str "a")] rfl rfl rfl,
   relay_serialization_outside_handlers.2.2 cfg0 [] (.success "mid")
     [("name", PyVal.str "a")] (List.cons_ne_nil _ _) rfl⟩
